import Mathlib

/-!
Shallow embedding of the btclight-social-nitter-x-bot relay pipeline.

Sources embedded:
- `src/src/db/tweet-repository.ts` : the Processed-Post Store operations
  (`exists`, `filterExisting`, `markAsProcessed`).
- `src/unnamed/part_004` (`utils/rss-parser.ts`, class `RSSParser`) : the
  `toTweets` oldest-first sorting step.
- `src/unnamed/part_000` (`services/social-relay.ts`, the `SocialRelayService`
  variant wired up by `src/index.ts`, methods `poll` / `processTweet`) :
  namespace `Part000`.
- `src/unnamed/part_001` (the `SocialRelayService` variant with first-run
  backfill and failure-streak alerting, methods `process` /
  `processSingleTweet` / `sendNitterFailureAlert`) : namespace `Part001`.

Dates are modelled as integers (milliseconds since epoch, the value of
`Date.getTime()`); the database table `tweets_processed` is modelled as the
list of its rows; external collaborators (HTTP fetch, XML parsing, the two
chat clients, the alert channel) are modelled as oracles in an `Env`
structure, and every observable interaction with them is recorded in an
explicit trace so that claims about "what was sent where" are statable.
-/

/-- A candidate post produced by the feed interpreter
(`ParsedTweet` in `clients/telegram-client.ts`). -/
structure ParsedTweet where
  id : String
  text : String
  link : String
  publishedAt : Int
deriving DecidableEq, Repr

/-- A row of the `tweets_processed` table (`TweetRecord` in
`db/tweet-repository.ts`; `created_at` is set by the database and plays no
role in any claim, so it is omitted). -/
structure TweetRecord where
  id : String
  published_at : Int
deriving DecidableEq, Repr

/-- `TweetRepository.exists`: `SELECT 1 FROM tweets_processed WHERE id = $1`
— true iff some row has the given id. -/
def existsId (store : List TweetRecord) (tweetId : String) : Bool :=
  store.any (fun r => r.id == tweetId)

/-- `TweetRepository.filterExisting`: given a list of ids, returns the set of
ids already present, together with the number of SQL queries issued.  The
source short-circuits on an empty input list (`if (tweetIds.length === 0)
return new Set()`) issuing no query; otherwise it issues a single
`SELECT id ... WHERE id IN (...)` bulk query, whose row set is exactly the
stored ids that occur among the requested ids. -/
def filterExisting (store : List TweetRecord) (tweetIds : List String) :
    List String × Nat :=
  if tweetIds.isEmpty then ([], 0)
  else ((store.map (fun r => r.id)).filter (fun i => tweetIds.contains i), 1)

/-- `TweetRepository.markAsProcessed`: `INSERT ... ON CONFLICT (id) DO NOTHING
RETURNING id`.  Returns `true` iff a row was actually inserted (`rows.length >
0`), `false` when the id already existed (the insert is a no-op). -/
def markAsProcessed (store : List TweetRecord) (tweetId : String)
    (publishedAt : Int) : Bool × List TweetRecord :=
  if existsId store tweetId then (false, store)
  else (true, store ++ [⟨tweetId, publishedAt⟩])

/-- The comparator of `RSSParser.toTweets`:
`(a, b) => a.publishedAt.getTime() - b.publishedAt.getTime()`, i.e. ascending
publish time. -/
def tweetLE (a b : ParsedTweet) : Prop := a.publishedAt ≤ b.publishedAt

instance : DecidableRel tweetLE := fun a b => inferInstanceAs (Decidable (a.publishedAt ≤ b.publishedAt))

instance : IsTotal ParsedTweet tweetLE := ⟨fun a b => Int.le_total a.publishedAt b.publishedAt⟩

instance : IsTrans ParsedTweet tweetLE := ⟨fun _ _ _ h h' => le_trans h h'⟩

/-- `RSSParser.toTweets` (part_004 lines 125–140): converts each RSS item via
`rssItemToTweet` and sorts the survivors by published date, **oldest first**
(`tweets.sort((a, b) => a.publishedAt.getTime() - b.publishedAt.getTime())`).
The per-item conversion (regex id extraction, date parsing, repost/reply
filtering) belongs to the external feed-interpreter boundary; its output — the
list of converted tweets in feed order — is the argument here, and this
definition performs the sorting step, with a stable sort as JavaScript
`Array.prototype.sort` is. -/
def toTweets (converted : List ParsedTweet) : List ParsedTweet :=
  List.insertionSort tweetLE converted

/-- The deduplication step shared verbatim by both service variants
(part_000 lines 99–102, part_001 lines 86–89): collect all candidate ids, ask
the store which exist in one bulk query, and keep the candidates whose id is
not in the returned set. -/
def selectNew (store : List TweetRecord) (allTweets : List ParsedTweet) :
    List ParsedTweet :=
  let existingIds := (filterExisting store (allTweets.map (fun t => t.id))).1
  allTweets.filter (fun t => !(existingIds.contains t.id))

namespace Part001

/-- The `ProcessingResult` interface of part_001. -/
structure ProcessingResult where
  totalFetched : Nat
  newTweets : Nat
  telegramSuccess : Nat
  telegramFailed : Nat
  discordSuccess : Nat
  discordFailed : Nat
  errors : List String
deriving DecidableEq, Repr

/-- The process-wide failure-streak state of the service:
`consecutiveFailures` and `alertSent` fields of `SocialRelayService`. -/
structure StreakState where
  consecutiveFailures : Nat
  alertSent : Bool
deriving DecidableEq, Repr

/-- `FAILURE_THRESHOLD` of part_001. -/
def FAILURE_THRESHOLD : Nat := 3

/-- Outcome of one `sendTweet` call on a chat client: the returned boolean, or
a thrown exception with its message. -/
inductive SinkOutcome where
  | ok (success : Bool)
  | threw (msg : String)
deriving DecidableEq, Repr

/-- Oracles for the external collaborators of one `process()` cycle.
`fetchOutcome` is the joint outcome of `nitterClient.fetchRSS()` and
`rssParser.parse` (either the converted candidate list in feed order, or the
message of the exception thrown); `storeReadFail` a failure of the
`filterExisting` bulk read; `dbFail id` the message of an exception thrown by
`markAsProcessed id`, if any; `alertFails` whether `discordClient.sendAlert`
throws. -/
structure Env where
  fetchOutcome : Except String (List ParsedTweet)
  storeReadFail : Option String
  telegram : String → SinkOutcome
  discord : String → SinkOutcome
  dbFail : String → Option String
  alertFails : Bool

/-- Trace of observable interactions of one cycle: ids passed to
`telegramClient.sendTweet` / `discordClient.sendTweet` in call order, ids for
which a `markAsProcessed` write was attempted, and number of
`discordClient.sendAlert` calls. -/
structure Trace where
  sentTelegram : List String
  sentDiscord : List String
  storeWrites : List String
  alertCalls : Nat
deriving DecidableEq, Repr

/-- The empty trace at cycle start. -/
def Trace.init : Trace := ⟨[], [], [], 0⟩

/-- `SocialRelayService.processSingleTweet` (part_001 lines 198–255): send to
Telegram (catching exceptions, counting success/failure, recording error
strings), then to Discord likewise, then — iff at least one channel succeeded
— attempt `markAsProcessed`, catching and recording a store failure without
undoing anything.  Threads the mutable `result`, the store and the trace. -/
def processSingleTweet (env : Env) (tweet : ParsedTweet)
    (acc : ProcessingResult × List TweetRecord × Trace) :
    ProcessingResult × List TweetRecord × Trace :=
  let result := acc.1
  let store := acc.2.1
  let trace := acc.2.2
  let trace := { trace with sentTelegram := trace.sentTelegram ++ [tweet.id] }
  let step1 : Bool × ProcessingResult :=
    match env.telegram tweet.id with
    | .ok true => (true, { result with telegramSuccess := result.telegramSuccess + 1 })
    | .ok false => (false, { result with
        telegramFailed := result.telegramFailed + 1,
        errors := result.errors ++ ["Telegram send failed for tweet " ++ tweet.id] })
    | .threw msg => (false, { result with
        telegramFailed := result.telegramFailed + 1,
        errors := result.errors ++ ["Telegram error for tweet " ++ tweet.id ++ ": " ++ msg] })
  let telegramSuccess := step1.1
  let result := step1.2
  let trace := { trace with sentDiscord := trace.sentDiscord ++ [tweet.id] }
  let step2 : Bool × ProcessingResult :=
    match env.discord tweet.id with
    | .ok true => (true, { result with discordSuccess := result.discordSuccess + 1 })
    | .ok false => (false, { result with
        discordFailed := result.discordFailed + 1,
        errors := result.errors ++ ["Discord send failed for tweet " ++ tweet.id] })
    | .threw msg => (false, { result with
        discordFailed := result.discordFailed + 1,
        errors := result.errors ++ ["Discord error for tweet " ++ tweet.id ++ ": " ++ msg] })
  let discordSuccess := step2.1
  let result := step2.2
  if telegramSuccess || discordSuccess then
    let trace := { trace with storeWrites := trace.storeWrites ++ [tweet.id] }
    match env.dbFail tweet.id with
    | some msg =>
        ({ result with
            errors := result.errors ++ ["DB error for tweet " ++ tweet.id ++ ": " ++ msg] },
         store, trace)
    | none => (result, (markAsProcessed store tweet.id tweet.publishedAt).2, trace)
  else
    (result, store, trace)

/-- The first-run backfill loop (part_001 lines 111–113): for each older tweet
call `markAsProcessed` without sending.  The calls are **not** wrapped in a
`try`, so the first throwing call aborts the loop; returns the error message
of that call (if any), the store as mutated by the preceding successful
writes, and the trace extended with the attempted writes. -/
def markOlder (env : Env) (store : List TweetRecord) (trace : Trace) :
    List ParsedTweet → Option String × List TweetRecord × Trace
  | [] => (none, store, trace)
  | t :: ts =>
    let trace := { trace with storeWrites := trace.storeWrites ++ [t.id] }
    match env.dbFail t.id with
    | some msg => (some msg, store, trace)
    | none => markOlder env (markAsProcessed store t.id t.publishedAt).2 trace ts

/-- The `catch` block of `process` (part_001 lines 144–161): record the error
message, increment `consecutiveFailures`, and if the streak reached
`FAILURE_THRESHOLD` with no alert sent yet, call
`sendNitterFailureAlert` (which invokes `discordClient.sendAlert` and catches
its failure internally) and set `alertSent := true`. -/
def onCatch (msg : String) (result : ProcessingResult)
    (store : List TweetRecord) (st : StreakState) (trace : Trace) :
    ProcessingResult × List TweetRecord × StreakState × Trace :=
  let result := { result with errors := result.errors ++ [msg] }
  let failures := st.consecutiveFailures + 1
  if FAILURE_THRESHOLD ≤ failures ∧ st.alertSent = false then
    (result, store, ⟨failures, true⟩, { trace with alertCalls := trace.alertCalls + 1 })
  else
    (result, store, ⟨failures, st.alertSent⟩, trace)

/-- The success epilogue of `process` (part_001 lines 136–141): reset the
failure streak, but only when the counter is currently nonzero. -/
def resetOnSuccess (st : StreakState) : StreakState :=
  if 0 < st.consecutiveFailures then ⟨0, false⟩ else st

/-- `SocialRelayService.process` (part_001 lines 57–163): fetch, parse and
sort; early-return on an empty feed; bulk-deduplicate (early-return when
nothing is new); detect first run (`existingIds.size === 0 &&
newTweets.length === totalFetched`) and, when more than one tweet is new,
backfill all but `newTweets[0]` and dispatch only `newTweets[0]`; otherwise
dispatch every new tweet in order; on any exception run the catch block.
Returns (result, store, streak, trace). -/
def process (env : Env) (store0 : List TweetRecord) (st : StreakState) :
    ProcessingResult × List TweetRecord × StreakState × Trace :=
  let result0 : ProcessingResult := ⟨0, 0, 0, 0, 0, 0, []⟩
  match env.fetchOutcome with
  | .error msg => onCatch msg result0 store0 st Trace.init
  | .ok converted =>
    let allTweets := toTweets converted
    let result := { result0 with totalFetched := allTweets.length }
    if allTweets.isEmpty then
      (result, store0, st, Trace.init)
    else
      match env.storeReadFail with
      | some msg => onCatch msg result store0 st Trace.init
      | none =>
        let existingIds := (filterExisting store0 (allTweets.map (fun t => t.id))).1
        let newTweets := allTweets.filter (fun t => !(existingIds.contains t.id))
        let result := { result with newTweets := newTweets.length }
        let isFirstRun := existingIds.isEmpty && newTweets.length == allTweets.length
        match newTweets with
        | [] => (result, store0, st, Trace.init)
        | latestTweet :: olderTweets =>
            if isFirstRun && decide (0 < olderTweets.length) then
              match markOlder env store0 Trace.init olderTweets with
              | (some msg, store1, trace1) => onCatch msg result store1 st trace1
              | (none, store1, trace1) =>
                let out := processSingleTweet env latestTweet (result, store1, trace1)
                ({ out.1 with newTweets := 1 }, out.2.1, resetOnSuccess st, out.2.2)
            else
              let out := (latestTweet :: olderTweets).foldl
                (fun acc t => processSingleTweet env t acc) (result, store0, Trace.init)
              (out.1, out.2.1, resetOnSuccess st, out.2.2)

end Part001

namespace Part000

/-- Per-tweet result (`TweetProcessingResult` interface of part_000). -/
structure TweetProcessingResult where
  tweetId : String
  telegram : Bool
  discord : Bool
  dbSaved : Bool
  skipped : Bool
  error : Option String
deriving DecidableEq, Repr

/-- Cycle result (`PollingResult` interface of part_000). -/
structure PollingResult where
  success : Bool
  tweetsFound : Nat
  tweetsProcessed : Nat
  results : List TweetProcessingResult
  error : Option String
deriving DecidableEq, Repr

/-- One observable interaction of a part_000 cycle, in call order: an
`exists(id)` store read, a `sendTweet` call on either client, or an attempted
`markAsProcessed(id)` store write. -/
inductive Event where
  | existsCheck (id : String)
  | sendTelegram (id : String)
  | sendDiscord (id : String)
  | storeWrite (id : String)
deriving DecidableEq, Repr

/-- Oracles for the external collaborators of one `poll()` cycle.  The two
chat clients never throw past their own boundary (both catch internally and
return a boolean), so they are plain boolean oracles here; `fetchOutcome` and
`storeReadFail` are as in `Part001.Env`; `dbFail id` is the message of an
exception thrown by `markAsProcessed id`, if any. -/
structure Env where
  fetchOutcome : Except String (List ParsedTweet)
  storeReadFail : Option String
  telegram : String → Bool
  discord : String → Bool
  dbFail : String → Option String

/-- `SocialRelayService.processTweet` (part_000 lines 162–213): re-check
`exists(id)` against the store; if it already exists return a `skipped`
result touching nothing else; otherwise send to Telegram, send to Discord,
and — iff at least one succeeded — attempt `markAsProcessed`, catching a
store failure (then `dbSaved` stays false); finally record a per-tweet error
string when both channels failed.  Returns the per-tweet result, the store
after the call, and the events emitted in order. -/
def processTweet (env : Env) (store : List TweetRecord) (tweet : ParsedTweet) :
    TweetProcessingResult × List TweetRecord × List Event :=
  if existsId store tweet.id then
    (⟨tweet.id, false, false, false, true, none⟩, store, [.existsCheck tweet.id])
  else
    let telegramSuccess := env.telegram tweet.id
    let discordSuccess := env.discord tweet.id
    let events := [Event.existsCheck tweet.id, .sendTelegram tweet.id, .sendDiscord tweet.id]
    let step : Bool × List TweetRecord × List Event :=
      if telegramSuccess || discordSuccess then
        match env.dbFail tweet.id with
        | some _ => (false, store, events ++ [.storeWrite tweet.id])
        | none =>
          let m := markAsProcessed store tweet.id tweet.publishedAt
          (m.1, m.2, events ++ [.storeWrite tweet.id])
      else (false, store, events)
    let err : Option String :=
      if !telegramSuccess && !discordSuccess then some "Both Telegram and Discord failed"
      else none
    (⟨tweet.id, telegramSuccess, discordSuccess, step.1, false, err⟩, step.2.1, step.2.2)

/-- The dispatch loop of `poll` (part_000 lines 120–130): run `processTweet`
on each new tweet in order, accumulating the per-tweet results, the store and
the event trace. -/
def pollLoop (env : Env) :
    List ParsedTweet → List TweetProcessingResult × List TweetRecord × List Event →
    List TweetProcessingResult × List TweetRecord × List Event
  | [], acc => acc
  | t :: ts, acc =>
    let step := processTweet env acc.2.1 t
    pollLoop env ts (acc.1 ++ [step.1], step.2.1, acc.2.2 ++ step.2.2)

/-- `SocialRelayService.poll` (part_000 lines 76–156): fetch, parse and sort;
early success on an empty feed; bulk-deduplicate (early success when nothing
is new); otherwise dispatch each new tweet through `processTweet` and report
`tweetsProcessed` as the number of results with `dbSaved`.  Any exception
(fetch, parse, or the bulk store read) yields
`{success:false, 0, 0, [], error}`. -/
def poll (env : Env) (store0 : List TweetRecord) :
    PollingResult × List TweetRecord × List Event :=
  match env.fetchOutcome with
  | .error msg => (⟨false, 0, 0, [], some msg⟩, store0, [])
  | .ok converted =>
    let tweets := toTweets converted
    if tweets.isEmpty then
      (⟨true, 0, 0, [], none⟩, store0, [])
    else
      match env.storeReadFail with
      | some msg => (⟨false, 0, 0, [], some msg⟩, store0, [])
      | none =>
        let existingIds := (filterExisting store0 (tweets.map (fun t => t.id))).1
        let newTweets := tweets.filter (fun t => !(existingIds.contains t.id))
        if newTweets.isEmpty then
          (⟨true, tweets.length, 0, [], none⟩, store0, [])
        else
          let out := pollLoop env newTweets ([], store0, [])
          let successCount := (out.1.filter (fun r => r.dbSaved)).length
          (⟨true, tweets.length, successCount, out.1, none⟩, out.2.1, out.2.2)

end Part000

/-! ## Helper lemmas -/

/-- A store with no row for `id` has an empty filter on that id. -/
theorem filter_eq_nil_of_not_existsId (store : List TweetRecord) (tweetId : String)
    (h : existsId store tweetId = false) :
    store.filter (fun r => r.id == tweetId) = [] := by
  induction store with
  | nil => rfl
  | cons r rest ih =>
    simp only [existsId, List.any_cons, Bool.or_eq_false_iff] at h
    simp [List.filter_cons, h.1, ih (by simp [existsId, h.2])]

/-- `List.contains` agreement with membership for strings. -/
theorem contains_iff_mem (l : List String) (a : String) :
    l.contains a = true ↔ a ∈ l :=
  List.elem_iff

/-- Membership in the bulk-filter result set: an id is reported existing iff
it is stored and was asked about. -/
theorem mem_filterExisting (store : List TweetRecord) (ids : List String)
    (i : String) :
    i ∈ (filterExisting store ids).1 ↔ existsId store i = true ∧ i ∈ ids := by
  cases ids with
  | nil => simp [filterExisting]
  | cons a as =>
    show i ∈ (store.map (fun r => r.id)).filter (fun x => (a :: as).contains x) ↔ _
    simp only [List.mem_filter, List.mem_map, existsId, List.any_eq_true]
    constructor
    · rintro ⟨⟨r, hr, rfl⟩, hc⟩
      exact ⟨⟨r, hr, by simp⟩, (contains_iff_mem _ _).mp hc⟩
    · rintro ⟨⟨r, hr, hre⟩, hi⟩
      have : r.id = i := by simpa using hre
      exact ⟨⟨r, hr, this⟩, (contains_iff_mem _ _).mpr hi⟩

/-- Membership in the deduplicated candidate list. -/
theorem mem_selectNew (store : List TweetRecord) (l : List ParsedTweet)
    (t : ParsedTweet) :
    t ∈ selectNew store l ↔ t ∈ l ∧ existsId store t.id = false := by
  unfold selectNew
  simp only [List.mem_filter, Bool.not_eq_eq_eq_not, Bool.not_true]
  constructor
  · rintro ⟨ht, hc⟩
    refine ⟨ht, ?_⟩
    by_contra hex
    have hex' : existsId store t.id = true := by
      cases h : existsId store t.id
      · exact absurd h hex
      · rfl
    have hmem : t.id ∈ (filterExisting store (l.map (fun t => t.id))).1 :=
      (mem_filterExisting _ _ _).mpr ⟨hex', List.mem_map.mpr ⟨t, ht, rfl⟩⟩
    have := (contains_iff_mem _ _).mpr hmem
    rw [this] at hc
    exact Bool.noConfusion hc
  · rintro ⟨ht, hex⟩
    refine ⟨ht, ?_⟩
    cases hc : (filterExisting store (l.map (fun t => t.id))).1.contains t.id
    · rfl
    · have hmem := (contains_iff_mem _ _).mp hc
      have := ((mem_filterExisting _ _ _).mp hmem).1
      rw [this] at hex
      exact Bool.noConfusion hex

/-! ## Claim theorems -/

/-- C10: `filterExisting` applied to an empty id list returns the empty set
and issues zero database queries, for every store state. -/
theorem filterExisting_empty_no_query (store : List TweetRecord) :
    filterExisting store [] = ([], 0) := rfl

/-- C9: starting from a store without the id, `markAsProcessed` returns `true`
and appends exactly one record; a second call with the same id returns `false`
and leaves the store unchanged (a no-op, not an error); the store holds
exactly one record for that id. -/
theorem markAsProcessed_idempotent (store : List TweetRecord) (tweetId : String)
    (pub pub' : Int) (h : existsId store tweetId = false) :
    (markAsProcessed store tweetId pub).1 = true ∧
    (markAsProcessed store tweetId pub).2 = store ++ [⟨tweetId, pub⟩] ∧
    (markAsProcessed (markAsProcessed store tweetId pub).2 tweetId pub').1 = false ∧
    (markAsProcessed (markAsProcessed store tweetId pub).2 tweetId pub').2 =
      (markAsProcessed store tweetId pub).2 ∧
    ((markAsProcessed store tweetId pub).2.filter
        (fun r => r.id == tweetId)).length = 1 := by
  have h2 : existsId (store ++ [⟨tweetId, pub⟩]) tweetId = true := by
    simp [existsId]
  refine ⟨?_, ?_, ?_, ?_, ?_⟩
  · simp [markAsProcessed, h]
  · simp [markAsProcessed, h]
  · simp [markAsProcessed, h, h2]
  · simp [markAsProcessed, h, h2]
  · simp [markAsProcessed, h, List.filter_append,
      filter_eq_nil_of_not_existsId store tweetId h]

/-- Witness for C9 at a concrete store and id. -/
theorem markAsProcessed_idempotent_witness :
    existsId [] "42" = false ∧
    (markAsProcessed [] "42" 7).1 = true ∧
    (markAsProcessed (markAsProcessed [] "42" 7).2 "42" 7).1 = false ∧
    ((markAsProcessed [] "42" 7).2.filter (fun r => r.id == "42")).length = 1 := by
  have h := markAsProcessed_idempotent [] "42" 7 7 (by decide)
  exact ⟨by decide, h.1, h.2.2.1, h.2.2.2.2⟩

/-- C1 (code bug): on a first run against an empty store with two fetched
candidates published at times 1 < 2 and both sinks succeeding, `process`
sends the candidate with the **minimum** `publishedAt` (id "1") to both
sinks — `toTweets` sorts oldest first, yet `process` takes `newTweets[0]`
believing "The first tweet is the most recent one" — and marks the
maximum-`publishedAt` candidate (id "2") as processed without sending it. -/
theorem firstRun_sends_minimum_publishedAt :
    (Part001.process
        ⟨.ok [⟨"2", "b", "l2", 2⟩, ⟨"1", "a", "l1", 1⟩], none,
          fun _ => .ok true, fun _ => .ok true, fun _ => none, false⟩
        [] ⟨0, false⟩).2.2.2.sentTelegram = ["1"] ∧
    (Part001.process
        ⟨.ok [⟨"2", "b", "l2", 2⟩, ⟨"1", "a", "l1", 1⟩], none,
          fun _ => .ok true, fun _ => .ok true, fun _ => none, false⟩
        [] ⟨0, false⟩).2.2.2.sentDiscord = ["1"] ∧
    (Part001.process
        ⟨.ok [⟨"2", "b", "l2", 2⟩, ⟨"1", "a", "l1", 1⟩], none,
          fun _ => .ok true, fun _ => .ok true, fun _ => none, false⟩
        [] ⟨0, false⟩).2.1 = [⟨"2", 2⟩, ⟨"1", 1⟩] ∧
    (1 : Int) < 2 := by decide

/-- C3: from streak state (0, alertSent := false) with threshold 3, four
consecutive fetch-failure cycles (with a **failing** alert channel) make
exactly one `sendAlert` call, on the third cycle; the fourth cycle makes no
further call because `alertSent` stays true — the alert-send failure is
caught and does not reset the flag. -/
theorem failure_streak_alerting :
    let env : Part001.Env := ⟨.error "nitter down", none, fun _ => .ok true,
      fun _ => .ok true, fun _ => none, true⟩
    let c1 := Part001.process env [] ⟨0, false⟩
    let c2 := Part001.process env [] c1.2.2.1
    let c3 := Part001.process env [] c2.2.2.1
    let c4 := Part001.process env [] c3.2.2.1
    c1.2.2.2.alertCalls = 0 ∧ c1.2.2.1 = ⟨1, false⟩ ∧
    c2.2.2.2.alertCalls = 0 ∧ c2.2.2.1 = ⟨2, false⟩ ∧
    c3.2.2.2.alertCalls = 1 ∧ c3.2.2.1 = ⟨3, true⟩ ∧
    c4.2.2.2.alertCalls = 0 ∧ c4.2.2.1 = ⟨4, true⟩ := by decide

/-- C2 counterexample: a cycle that completes without any exception but
returns early on an empty feed leaves the failure counter and alert flag at
their prior values (3, true) instead of resetting them to (0, false). -/
theorem streak_not_reset_on_empty_feed :
    (Part001.process
        ⟨.ok [], none, fun _ => .ok true, fun _ => .ok true, fun _ => none, false⟩
        [] ⟨3, true⟩).2.2.1 = ⟨3, true⟩ ∧
    (Part001.process
        ⟨.ok [], none, fun _ => .ok true, fun _ => .ok true, fun _ => none, false⟩
        [] ⟨3, true⟩).2.2.1 ≠ ⟨0, false⟩ := by decide

/-- C4: per-post store-write policy of `processSingleTweet`.  A
`markAsProcessed` write is attempted for the post iff at least one sink
reported success; when both sinks fail the store is untouched; when the write
itself fails the error is caught and recorded in the error list while the
sends (and the store) stand as they were; when the write succeeds the store
is updated by `markAsProcessed`; under a healthy store write, the post ends
up recorded iff at least one sink succeeded. -/
theorem store_write_policy (env : Part001.Env) (tweet : ParsedTweet)
    (result : Part001.ProcessingResult) (store : List TweetRecord)
    (trace : Part001.Trace) :
    ((Part001.processSingleTweet env tweet (result, store, trace)).2.2.storeWrites =
      (if env.telegram tweet.id = .ok true ∨ env.discord tweet.id = .ok true
       then trace.storeWrites ++ [tweet.id] else trace.storeWrites)) ∧
    (env.telegram tweet.id ≠ .ok true → env.discord tweet.id ≠ .ok true →
      (Part001.processSingleTweet env tweet (result, store, trace)).2.1 = store) ∧
    (∀ msg, (env.telegram tweet.id = .ok true ∨ env.discord tweet.id = .ok true) →
      env.dbFail tweet.id = some msg →
      (Part001.processSingleTweet env tweet (result, store, trace)).2.1 = store ∧
      ("DB error for tweet " ++ tweet.id ++ ": " ++ msg) ∈
        (Part001.processSingleTweet env tweet (result, store, trace)).1.errors ∧
      (Part001.processSingleTweet env tweet (result, store, trace)).2.2.sentTelegram =
        trace.sentTelegram ++ [tweet.id] ∧
      (Part001.processSingleTweet env tweet (result, store, trace)).2.2.sentDiscord =
        trace.sentDiscord ++ [tweet.id]) ∧
    ((env.telegram tweet.id = .ok true ∨ env.discord tweet.id = .ok true) →
      env.dbFail tweet.id = none →
      (Part001.processSingleTweet env tweet (result, store, trace)).2.1 =
        (markAsProcessed store tweet.id tweet.publishedAt).2) ∧
    (env.dbFail tweet.id = none → existsId store tweet.id = false →
      (existsId (Part001.processSingleTweet env tweet (result, store, trace)).2.1
          tweet.id = true ↔
        (env.telegram tweet.id = .ok true ∨ env.discord tweet.id = .ok true))) := by
  rcases htg : env.telegram tweet.id with btg | mtg <;>
    try rcases btg
  all_goals rcases hdc : env.discord tweet.id with bdc | mdc <;> try rcases bdc
  all_goals rcases hdb : env.dbFail tweet.id with _ | msg
  all_goals
    simp [Part001.processSingleTweet, htg, hdc, hdb, markAsProcessed, existsId]
  all_goals
    intro h
    have hni : ¬ ∃ x ∈ store, x.id = tweet.id := by
      rintro ⟨x, hx, he⟩
      exact h x hx he
    rw [if_neg hni]
    exact ⟨⟨tweet.id, tweet.publishedAt⟩, by simp, rfl⟩

/-- Witness for C4: Telegram succeeds, Discord fails, healthy store — the
write is attempted and the post ends up recorded. -/
theorem store_write_policy_witness :
    existsId [] "9" = false ∧
    (Part001.processSingleTweet
        ⟨.ok [], none, fun _ => .ok true, fun _ => .ok false, fun _ => none, false⟩
        ⟨"9", "t", "l", 5⟩
        (⟨0, 0, 0, 0, 0, 0, []⟩, [], Part001.Trace.init)).2.2.storeWrites = ["9"] ∧
    existsId (Part001.processSingleTweet
        ⟨.ok [], none, fun _ => .ok true, fun _ => .ok false, fun _ => none, false⟩
        ⟨"9", "t", "l", 5⟩
        (⟨0, 0, 0, 0, 0, 0, []⟩, [], Part001.Trace.init)).2.1 "9" = true := by
  have h := store_write_policy
    ⟨.ok [], none, fun _ => .ok true, fun _ => .ok false, fun _ => none, false⟩
    ⟨"9", "t", "l", 5⟩ ⟨0, 0, 0, 0, 0, 0, []⟩ [] Part001.Trace.init
  refine ⟨rfl, ?_, ?_⟩
  · have h1 := h.1
    rw [if_pos (Or.inl rfl)] at h1
    exact h1
  · exact (h.2.2.2.2 rfl rfl).mpr (Or.inl rfl)

/-- C5 (amended): on part_000's per-post path (`processTweet`, the service
variant wired up by `src/index.ts`), the first interaction is the
`exists(id)` store read; when the id already exists the outcome is `skipped`,
neither sink is called and the store is untouched; when it does not exist,
the events are exactly the check followed by the Telegram and Discord sends
(and the store write iff a sink succeeded).  Part_001's per-post path
(`processSingleTweet`) performs **no** such recheck: it sends to the sinks
unconditionally, whatever the store contains. -/
theorem existence_recheck (env : Part000.Env) (store : List TweetRecord)
    (tweet : ParsedTweet) :
    ((Part000.processTweet env store tweet).2.2.head? =
      some (.existsCheck tweet.id)) ∧
    (existsId store tweet.id = true →
      (Part000.processTweet env store tweet).1.skipped = true ∧
      (Part000.processTweet env store tweet).2.2 = [.existsCheck tweet.id] ∧
      (Part000.processTweet env store tweet).2.1 = store) ∧
    (existsId store tweet.id = false →
      (Part000.processTweet env store tweet).1.skipped = false ∧
      (Part000.processTweet env store tweet).2.2 =
        [.existsCheck tweet.id, .sendTelegram tweet.id, .sendDiscord tweet.id] ++
          (if env.telegram tweet.id || env.discord tweet.id
           then [.storeWrite tweet.id] else [])) ∧
    (∀ (envB : Part001.Env) (r : Part001.ProcessingResult)
      (storeB : List TweetRecord) (tr : Part001.Trace),
      (Part001.processSingleTweet envB tweet (r, storeB, tr)).2.2.sentTelegram =
        tr.sentTelegram ++ [tweet.id] ∧
      (Part001.processSingleTweet envB tweet (r, storeB, tr)).2.2.sentDiscord =
        tr.sentDiscord ++ [tweet.id]) := by
  refine ?_
  have hB : ∀ (envB : Part001.Env) (r : Part001.ProcessingResult)
      (storeB : List TweetRecord) (tr : Part001.Trace),
      (Part001.processSingleTweet envB tweet (r, storeB, tr)).2.2.sentTelegram =
        tr.sentTelegram ++ [tweet.id] ∧
      (Part001.processSingleTweet envB tweet (r, storeB, tr)).2.2.sentDiscord =
        tr.sentDiscord ++ [tweet.id] := by
    intro envB r storeB tr
    rcases htg : envB.telegram tweet.id with b | m <;> try rcases b
    all_goals rcases hdc : envB.discord tweet.id with b2 | m2 <;> try rcases b2
    all_goals rcases hdb : envB.dbFail tweet.id with _ | msg
    all_goals constructor <;> simp [Part001.processSingleTweet, htg, hdc, hdb]
  refine ?_
  cases hex : existsId store tweet.id
  · cases hor : (env.telegram tweet.id || env.discord tweet.id)
    all_goals cases hdb : env.dbFail tweet.id
    all_goals simp [Part000.processTweet, hex, hor, hdb, hB]
  · simp [Part000.processTweet, hex, hB]

/-- Witness for C5: with the id already present in the store, the dispatch is
skipped and only the existence check is performed. -/
theorem existence_recheck_witness :
    existsId [⟨"7", 3⟩] "7" = true ∧
    (Part000.processTweet
        ⟨.ok [], none, fun _ => true, fun _ => true, fun _ => none⟩
        [⟨"7", 3⟩] ⟨"7", "x", "l", 3⟩).1.skipped = true ∧
    (Part000.processTweet
        ⟨.ok [], none, fun _ => true, fun _ => true, fun _ => none⟩
        [⟨"7", 3⟩] ⟨"7", "x", "l", 3⟩).2.2 = [.existsCheck "7"] := by
  have h := existence_recheck
    ⟨.ok [], none, fun _ => true, fun _ => true, fun _ => none⟩
    [⟨"7", 3⟩] ⟨"7", "x", "l", 3⟩
  exact ⟨by decide, (h.2.1 (by decide)).1, (h.2.1 (by decide)).2.1⟩

/-- C6: deduplication exactness.  (1) a non-empty id list costs exactly one
bulk query; (2) the deduplicated list contains a candidate iff it was fetched
and its id is not in the store — no extras, no omissions; (3) when every
candidate already exists, `process` returns early with the original fetched
count, zero new posts, no errors, and no sink or store interaction. -/
theorem dedup_exactness :
    (∀ (store : List TweetRecord) (ids : List String), ids ≠ [] →
      (filterExisting store ids).2 = 1) ∧
    (∀ (store : List TweetRecord) (l : List ParsedTweet) (t : ParsedTweet),
      t ∈ selectNew store l ↔ t ∈ l ∧ existsId store t.id = false) ∧
    (∀ (env : Part001.Env) (conv : List ParsedTweet) (store0 : List TweetRecord)
      (st : Part001.StreakState),
      env.fetchOutcome = .ok conv → env.storeReadFail = none →
      toTweets conv ≠ [] → selectNew store0 (toTweets conv) = [] →
      (Part001.process env store0 st).1.totalFetched = (toTweets conv).length ∧
      (Part001.process env store0 st).1.newTweets = 0 ∧
      (Part001.process env store0 st).1.errors = [] ∧
      (Part001.process env store0 st).2.1 = store0 ∧
      (Part001.process env store0 st).2.2.2 = Part001.Trace.init) := by
  refine ⟨?_, mem_selectNew, ?_⟩
  · intro store ids h
    unfold filterExisting
    rw [if_neg (by simpa using h)]
  · intro env conv store0 st hf hrf hne hsel
    have hsel' : (toTweets conv).filter
        (fun t => !(((filterExisting store0
          ((toTweets conv).map (fun t => t.id))).1).contains t.id)) = [] := hsel
    unfold Part001.process
    rw [hf]
    simp only [hrf, List.isEmpty_eq_false.mpr hne, if_false, Bool.false_eq_true, hsel',
      List.isEmpty_nil, List.length_nil, dite_true]
    exact ⟨trivial, trivial, trivial, trivial, trivial⟩

/-- Witness for C6: two fetched candidates, both already in the store. -/
theorem dedup_exactness_witness :
    (filterExisting [⟨"1", 1⟩, ⟨"2", 2⟩] ["1", "2"]).2 = 1 ∧
    (Part001.process
        ⟨.ok [⟨"1", "a", "l1", 1⟩, ⟨"2", "b", "l2", 2⟩], none,
          fun _ => .ok true, fun _ => .ok true, fun _ => none, false⟩
        [⟨"1", 1⟩, ⟨"2", 2⟩] ⟨0, false⟩).1.totalFetched = 2 ∧
    (Part001.process
        ⟨.ok [⟨"1", "a", "l1", 1⟩, ⟨"2", "b", "l2", 2⟩], none,
          fun _ => .ok true, fun _ => .ok true, fun _ => none, false⟩
        [⟨"1", 1⟩, ⟨"2", 2⟩] ⟨0, false⟩).1.newTweets = 0 ∧
    (Part001.process
        ⟨.ok [⟨"1", "a", "l1", 1⟩, ⟨"2", "b", "l2", 2⟩], none,
          fun _ => .ok true, fun _ => .ok true, fun _ => none, false⟩
        [⟨"1", 1⟩, ⟨"2", 2⟩] ⟨0, false⟩).2.2.2 = Part001.Trace.init := by
  have h := dedup_exactness
  have h1 := h.1 [⟨"1", 1⟩, ⟨"2", 2⟩] ["1", "2"] (by decide)
  have h3 := h.2.2
    ⟨.ok [⟨"1", "a", "l1", 1⟩, ⟨"2", "b", "l2", 2⟩], none,
      fun _ => .ok true, fun _ => .ok true, fun _ => none, false⟩
    [⟨"1", "a", "l1", 1⟩, ⟨"2", "b", "l2", 2⟩]
    [⟨"1", 1⟩, ⟨"2", 2⟩] ⟨0, false⟩ rfl rfl (by decide) (by decide)
  exact ⟨h1, by simpa using h3.1, h3.2.1, h3.2.2.2.2⟩

/-- The first-run backfill loop succeeds when no write throws. -/
theorem markOlder_none (env : Part001.Env) :
    ∀ (ts : List ParsedTweet) (store : List TweetRecord) (trace : Part001.Trace),
    (∀ t ∈ ts, env.dbFail t.id = none) →
    (Part001.markOlder env store trace ts).1 = none := by
  intro ts
  induction ts with
  | nil => intro store trace _; rfl
  | cons t ts ih =>
    intro store trace h
    unfold Part001.markOlder
    rw [h t (by simp)]
    exact ih _ _ (fun u hu => h u (by simp [hu]))

/-- Streak behaviour of a cycle whose fetch succeeds: early returns (empty
feed, nothing new) keep the prior streak state; a cycle that reaches the
dispatch phase (and whose backfill writes do not throw) applies
`resetOnSuccess`; `resetOnSuccess` yields (0, false) exactly when the prior
counter was nonzero. -/
theorem process_streak_behavior (env : Part001.Env) (store0 : List TweetRecord)
    (st : Part001.StreakState) (conv : List ParsedTweet)
    (hf : env.fetchOutcome = .ok conv) :
    (toTweets conv = [] → (Part001.process env store0 st).2.2.1 = st) ∧
    (env.storeReadFail = none → toTweets conv ≠ [] →
      selectNew store0 (toTweets conv) = [] →
      (Part001.process env store0 st).2.2.1 = st) ∧
    (env.storeReadFail = none → selectNew store0 (toTweets conv) ≠ [] →
      (∀ t ∈ selectNew store0 (toTweets conv), env.dbFail t.id = none) →
      (Part001.process env store0 st).2.2.1 = Part001.resetOnSuccess st) ∧
    (0 < st.consecutiveFailures → Part001.resetOnSuccess st = ⟨0, false⟩) ∧
    (st.consecutiveFailures = 0 → Part001.resetOnSuccess st = st) := by
  have hsel : ((toTweets conv).filter
      (fun t => !(((filterExisting store0
        ((toTweets conv).map (fun t => t.id))).1).contains t.id))) =
      selectNew store0 (toTweets conv) := rfl
  refine ⟨?_, ?_, ?_, ?_, ?_⟩
  · intro h0
    unfold Part001.process
    rw [hf]
    simp [h0]
  · intro hrf hne hs
    unfold Part001.process
    rw [hf]
    simp only [hrf, List.isEmpty_eq_false.mpr hne, if_false, Bool.false_eq_true, hsel, hs]
  · intro hrf hne hdb
    have hAllne : toTweets conv ≠ [] := by
      intro h0
      apply hne
      simp [selectNew, h0]
    unfold Part001.process
    rw [hf]
    simp only [hrf, List.isEmpty_eq_false.mpr hAllne, if_false, Bool.false_eq_true, hsel]
    rcases hcons : selectNew store0 (toTweets conv) with _ | ⟨latest, older⟩
    · exact absurd hcons hne
    · cases hc : ((filterExisting store0 ((toTweets conv).map (fun t => t.id))).1.isEmpty
        && (latest :: older).length == (toTweets conv).length)
        && decide (0 < older.length)
      · simp only [hc, if_false, Bool.false_eq_true]
      · simp only [hc, if_true]
        have holder : ∀ t ∈ older, env.dbFail t.id = none := by
          intro u hu
          exact hdb u (by rw [hcons]; exact List.mem_cons_of_mem _ hu)
        have hnone := markOlder_none env older store0 Part001.Trace.init holder
        rcases hm : Part001.markOlder env store0 Part001.Trace.init older
          with ⟨o, store1, trace1⟩
        rw [hm] at hnone
        simp only at hnone
        rw [hnone]
  · intro h
    unfold Part001.resetOnSuccess
    rw [if_pos h]
  · intro h
    unfold Part001.resetOnSuccess
    rw [if_neg (by simp [h])]

/-- C2 (amended): after a cycle without fetch/parse-level exception, the
failure counter and alert flag are reset to (0, false) only when the cycle
reached the dispatch phase and the counter was previously nonzero (a prior
counter of zero leaves both fields untouched); cycles that return early —
empty feed, or no new posts after deduplication — leave both values
unchanged, regardless of their prior values. -/
theorem streak_reset_policy (env : Part001.Env) (store0 : List TweetRecord)
    (st : Part001.StreakState) (conv : List ParsedTweet)
    (hf : env.fetchOutcome = .ok conv) :
    (toTweets conv = [] → (Part001.process env store0 st).2.2.1 = st) ∧
    (env.storeReadFail = none → toTweets conv ≠ [] →
      selectNew store0 (toTweets conv) = [] →
      (Part001.process env store0 st).2.2.1 = st) ∧
    (env.storeReadFail = none → selectNew store0 (toTweets conv) ≠ [] →
      (∀ t ∈ selectNew store0 (toTweets conv), env.dbFail t.id = none) →
      0 < st.consecutiveFailures →
      (Part001.process env store0 st).2.2.1 = ⟨0, false⟩) ∧
    (env.storeReadFail = none → selectNew store0 (toTweets conv) ≠ [] →
      (∀ t ∈ selectNew store0 (toTweets conv), env.dbFail t.id = none) →
      st.consecutiveFailures = 0 →
      (Part001.process env store0 st).2.2.1 = st) := by
  have h := process_streak_behavior env store0 st conv hf
  refine ⟨h.1, h.2.1, ?_, ?_⟩
  · intro hrf hne hdb hpos
    rw [h.2.2.1 hrf hne hdb]
    exact h.2.2.2.1 hpos
  · intro hrf hne hdb hzero
    rw [h.2.2.1 hrf hne hdb]
    exact h.2.2.2.2 hzero

/-- Witness for C2: an empty-feed cycle from streak (2, true) keeps (2, true);
a dispatching cycle from (2, true) resets to (0, false). -/
theorem streak_reset_policy_witness :
    (Part001.process
        ⟨.ok [], none, fun _ => .ok true, fun _ => .ok true, fun _ => none, false⟩
        [] ⟨2, true⟩).2.2.1 = ⟨2, true⟩ ∧
    (Part001.process
        ⟨.ok [⟨"1", "a", "l1", 1⟩], none, fun _ => .ok true, fun _ => .ok true,
          fun _ => none, false⟩
        [⟨"0", 0⟩] ⟨2, true⟩).2.2.1 = ⟨0, false⟩ := by
  have h1 := streak_reset_policy
    ⟨.ok [], none, fun _ => .ok true, fun _ => .ok true, fun _ => none, false⟩
    [] ⟨2, true⟩ [] rfl
  have h2 := streak_reset_policy
    ⟨.ok [⟨"1", "a", "l1", 1⟩], none, fun _ => .ok true, fun _ => .ok true,
      fun _ => none, false⟩
    [⟨"0", 0⟩] ⟨2, true⟩ [⟨"1", "a", "l1", 1⟩] rfl
  exact ⟨h1.1 rfl, h2.2.2.1 rfl (by decide) (by decide) (by decide)⟩
/-- C7 counterexample: a cycle whose fetch AND dedup-stage store read both
succeed can still abort wholesale — on a first run, the unwrapped
`markAsProcessed` call in the backfill loop throws, the cycle lands in the
catch block (error recorded, failure streak incremented) and no sink is ever
called.  Fetch/dedup-read failure is therefore not the only failure class
that aborts the whole cycle. -/
theorem backfill_write_failure_aborts_cycle :
    (Part001.Env.fetchOutcome
        ⟨.ok [⟨"2", "b", "l2", 2⟩, ⟨"1", "a", "l1", 1⟩], none,
          fun _ => .ok true, fun _ => .ok true,
          fun i => if i == "2" then some "db down" else none, false⟩ =
      .ok [⟨"2", "b", "l2", 2⟩, ⟨"1", "a", "l1", 1⟩]) ∧
    (Part001.Env.storeReadFail
        ⟨.ok [⟨"2", "b", "l2", 2⟩, ⟨"1", "a", "l1", 1⟩], none,
          fun _ => .ok true, fun _ => .ok true,
          fun i => if i == "2" then some "db down" else none, false⟩ = none) ∧
    (Part001.process
        ⟨.ok [⟨"2", "b", "l2", 2⟩, ⟨"1", "a", "l1", 1⟩], none,
          fun _ => .ok true, fun _ => .ok true,
          fun i => if i == "2" then some "db down" else none, false⟩
        [] ⟨0, false⟩).2.2.1.consecutiveFailures = 1 ∧
    (Part001.process
        ⟨.ok [⟨"2", "b", "l2", 2⟩, ⟨"1", "a", "l1", 1⟩], none,
          fun _ => .ok true, fun _ => .ok true,
          fun i => if i == "2" then some "db down" else none, false⟩
        [] ⟨0, false⟩).1.errors = ["db down"] ∧
    (Part001.process
        ⟨.ok [⟨"2", "b", "l2", 2⟩, ⟨"1", "a", "l1", 1⟩], none,
          fun _ => .ok true, fun _ => .ok true,
          fun i => if i == "2" then some "db down" else none, false⟩
        [] ⟨0, false⟩).2.2.2.sentTelegram = [] := by
  refine ⟨rfl, rfl, ?_, ?_, ?_⟩ <;> decide

/-- C7 (amended): a fetch-stage failure aborts the cycle immediately — in
part_000's `poll` the result is `{success := false}` with zero counts, the
error recorded, the store untouched and no events; in part_001's `process`
the result carries zero counts and only the error message, the store is
untouched, the failure streak is incremented and no send or write happens.
A dedup-stage store read failure aborts `poll` the same way.  Besides these,
the only other abort in `process` is an uncaught store write failure in the
first-run backfill loop: when fetch succeeds, the bulk read succeeds and no
store write throws, the streak is never incremented. -/
theorem fetch_stage_failure_aborts (msg : String) :
    (∀ (env : Part000.Env) (store0 : List TweetRecord),
      env.fetchOutcome = .error msg →
      Part000.poll env store0 = (⟨false, 0, 0, [], some msg⟩, store0, [])) ∧
    (∀ (env : Part001.Env) (store0 : List TweetRecord) (st : Part001.StreakState),
      env.fetchOutcome = .error msg →
      (Part001.process env store0 st).1 = ⟨0, 0, 0, 0, 0, 0, [msg]⟩ ∧
      (Part001.process env store0 st).2.1 = store0 ∧
      (Part001.process env store0 st).2.2.1.consecutiveFailures =
        st.consecutiveFailures + 1 ∧
      (Part001.process env store0 st).2.2.2.sentTelegram = [] ∧
      (Part001.process env store0 st).2.2.2.sentDiscord = [] ∧
      (Part001.process env store0 st).2.2.2.storeWrites = []) ∧
    (∀ (env : Part000.Env) (store0 : List TweetRecord) (conv : List ParsedTweet),
      env.fetchOutcome = .ok conv → toTweets conv ≠ [] →
      env.storeReadFail = some msg →
      Part000.poll env store0 = (⟨false, 0, 0, [], some msg⟩, store0, [])) ∧
    (∀ (env : Part001.Env) (store0 : List TweetRecord) (st : Part001.StreakState)
      (conv : List ParsedTweet),
      env.fetchOutcome = .ok conv → env.storeReadFail = none →
      (∀ t ∈ selectNew store0 (toTweets conv), env.dbFail t.id = none) →
      (Part001.process env store0 st).2.2.1.consecutiveFailures ≠
        st.consecutiveFailures + 1) := by
  refine ⟨?_, ?_, ?_, ?_⟩
  · intro env store0 hf
    unfold Part000.poll
    rw [hf]
  · intro env store0 st hf
    unfold Part001.process
    rw [hf]
    by_cases hc : Part001.FAILURE_THRESHOLD ≤ st.consecutiveFailures + 1 ∧
      st.alertSent = false
    · simp [Part001.onCatch, hc, Part001.Trace.init]
    · simp [Part001.onCatch, hc, Part001.Trace.init]
  · intro env store0 conv hf hne hrf
    unfold Part000.poll
    rw [hf]
    simp only [List.isEmpty_eq_false.mpr hne, if_false, Bool.false_eq_true, hrf]
  · intro env store0 st conv hf hrf hdb
    have h := process_streak_behavior env store0 st conv hf
    by_cases h0 : toTweets conv = []
    · rw [h.1 h0]
      omega
    · by_cases hs : selectNew store0 (toTweets conv) = []
      · rw [h.2.1 hrf h0 hs]
        omega
      · rw [h.2.2.1 hrf hs hdb]
        unfold Part001.resetOnSuccess
        by_cases hp : 0 < st.consecutiveFailures
        · rw [if_pos hp]
          show (0 : Nat) ≠ st.consecutiveFailures + 1
          omega
        · rw [if_neg hp]
          omega

/-- Witness for C7: a concrete fetch failure yields the abort result in both
service variants, and a healthy cycle does not increment the streak. -/
theorem fetch_stage_failure_aborts_witness :
    Part000.poll ⟨.error "down", none, fun _ => true, fun _ => true, fun _ => none⟩ [] =
      (⟨false, 0, 0, [], some "down"⟩, [], []) ∧
    (Part001.process
        ⟨.error "down", none, fun _ => .ok true, fun _ => .ok true, fun _ => none, false⟩
        [] ⟨0, false⟩).2.2.1.consecutiveFailures = 1 ∧
    (Part001.process
        ⟨.ok [], none, fun _ => .ok true, fun _ => .ok true, fun _ => none, false⟩
        [] ⟨0, false⟩).2.2.1.consecutiveFailures ≠ 1 := by
  have h := fetch_stage_failure_aborts "down"
  refine ⟨h.1 _ [] rfl, (h.2.1 _ [] ⟨0, false⟩ rfl).2.2.1, ?_⟩
  have h4 := (fetch_stage_failure_aborts "down").2.2.2
    ⟨.ok [], none, fun _ => .ok true, fun _ => .ok true, fun _ => none, false⟩
    [] ⟨0, false⟩ [] rfl rfl (by intro t ht; rfl)
  simpa using h4

/-- `processSingleTweet` sends the tweet to Telegram exactly once, appending
its id to the send trace. -/
theorem processSingleTweet_sentTelegram (env : Part001.Env) (tweet : ParsedTweet)
    (acc : Part001.ProcessingResult × List TweetRecord × Part001.Trace) :
    (Part001.processSingleTweet env tweet acc).2.2.sentTelegram =
      acc.2.2.sentTelegram ++ [tweet.id] := by
  rcases acc with ⟨r, s, tr⟩
  rcases htg : env.telegram tweet.id with b | m <;> try rcases b
  all_goals rcases hdc : env.discord tweet.id with b2 | m2 <;> try rcases b2
  all_goals rcases hdb : env.dbFail tweet.id with _ | msg
  all_goals simp [Part001.processSingleTweet, htg, hdc, hdb]

/-- The dispatch loop sends the tweets to Telegram in list order. -/
theorem foldl_sentTelegram (env : Part001.Env) :
    ∀ (l : List ParsedTweet)
      (acc : Part001.ProcessingResult × List TweetRecord × Part001.Trace),
    (l.foldl (fun a t => Part001.processSingleTweet env t a) acc).2.2.sentTelegram =
      acc.2.2.sentTelegram ++ l.map (fun t => t.id) := by
  intro l
  induction l with
  | nil => intro acc; simp
  | cons t ts ih =>
    intro acc
    rw [List.foldl_cons, ih, processSingleTweet_sentTelegram, List.map_cons,
      List.append_assoc]
    rfl

/-- C8: candidate posts are sorted oldest published time first (`toTweets`
yields a `tweetLE`-sorted permutation of its input), and normal-path dispatch
(no first-run condition, i.e. some fetched id already existed) sends the
deduplicated posts to the sinks exactly in that sorted order; concretely,
candidates published at times 10 < 20 < 30 arriving in feed order
(30, 10, 20) are dispatched as (10, 20, 30). -/
theorem dispatch_order_oldest_first :
    (∀ l : List ParsedTweet, List.Sorted tweetLE (toTweets l)) ∧
    (∀ l : List ParsedTweet, (toTweets l).Perm l) ∧
    (∀ (env : Part001.Env) (store0 : List TweetRecord) (st : Part001.StreakState)
      (conv : List ParsedTweet),
      env.fetchOutcome = .ok conv → env.storeReadFail = none →
      (filterExisting store0 ((toTweets conv).map (fun t => t.id))).1 ≠ [] →
      (Part001.process env store0 st).2.2.2.sentTelegram =
        (selectNew store0 (toTweets conv)).map (fun t => t.id)) ∧
    ((Part001.process
        ⟨.ok [⟨"a3", "w", "lc", 30⟩, ⟨"0", "z", "l0", 0⟩,
              ⟨"a1", "x", "la", 10⟩, ⟨"a2", "y", "lb", 20⟩], none,
          fun _ => .ok true, fun _ => .ok true, fun _ => none, false⟩
        [⟨"0", 0⟩] ⟨0, false⟩).2.2.2.sentTelegram = ["a1", "a2", "a3"]) := by
  refine ⟨fun l => List.sorted_insertionSort tweetLE l,
    fun l => List.perm_insertionSort tweetLE l, ?_, by decide⟩
  intro env store0 st conv hf hrf hex
  have hsel : ((toTweets conv).filter
      (fun t => !(((filterExisting store0
        ((toTweets conv).map (fun t => t.id))).1).contains t.id))) =
      selectNew store0 (toTweets conv) := rfl
  unfold Part001.process
  rw [hf]
  by_cases h0 : toTweets conv = []
  · simp [h0, selectNew, Part001.Trace.init]
  · simp only [hrf, List.isEmpty_eq_false.mpr h0, if_false, Bool.false_eq_true, hsel]
    rcases hcons : selectNew store0 (toTweets conv) with _ | ⟨latest, older⟩
    · simp [Part001.Trace.init, hcons]
    · have hefalse : (filterExisting store0
          ((toTweets conv).map (fun t => t.id))).1.isEmpty = false :=
        List.isEmpty_eq_false.mpr hex
      simp only [hefalse, Bool.false_and, Bool.false_eq_true, if_false]
      rw [foldl_sentTelegram env (latest :: older)]
      simp [Part001.Trace.init, hcons]

/-- Witness for C8 at a concrete store and feed: general dispatch-order
clause applied to the concrete first-run-free cycle. -/
theorem dispatch_order_oldest_first_witness :
    (Part001.process
        ⟨.ok [⟨"a3", "w", "lc", 30⟩, ⟨"a1", "x", "la", 10⟩], none,
          fun _ => .ok true, fun _ => .ok true, fun _ => none, false⟩
        [⟨"a1", 10⟩] ⟨0, false⟩).2.2.2.sentTelegram =
      (selectNew [⟨"a1", 10⟩]
        (toTweets [⟨"a3", "w", "lc", 30⟩, ⟨"a1", "x", "la", 10⟩])).map
          (fun t => t.id) := by
  exact dispatch_order_oldest_first.2.2.1
    ⟨.ok [⟨"a3", "w", "lc", 30⟩, ⟨"a1", "x", "la", 10⟩], none,
      fun _ => .ok true, fun _ => .ok true, fun _ => none, false⟩
    [⟨"a1", 10⟩] ⟨0, false⟩ [⟨"a3", "w", "lc", 30⟩, ⟨"a1", "x", "la", 10⟩]
    rfl rfl (by decide)

/-- C5 counterexample: part_001's per-post path consults no existence check —
dispatching a tweet whose id is already in the store still calls both sinks
(the send traces grow), and nothing in its result is marked skipped. -/
theorem part001_sends_despite_existing_id :
    existsId [⟨"7", 3⟩] "7" = true ∧
    (Part001.processSingleTweet
        ⟨.ok [], none, fun _ => .ok true, fun _ => .ok true, fun _ => none, false⟩
        ⟨"7", "x", "l", 3⟩
        (⟨0, 0, 0, 0, 0, 0, []⟩, [⟨"7", 3⟩], Part001.Trace.init)).2.2.sentTelegram =
      ["7"] ∧
    (Part001.processSingleTweet
        ⟨.ok [], none, fun _ => .ok true, fun _ => .ok true, fun _ => none, false⟩
        ⟨"7", "x", "l", 3⟩
        (⟨0, 0, 0, 0, 0, 0, []⟩, [⟨"7", 3⟩], Part001.Trace.init)).2.2.sentDiscord =
      ["7"] := by decide
